import Mathlib

/-
Shallow embedding of the SMTP probing engine of the email-verifier
repository (Go).  Pure functions of the source (error classification,
the verification facade's control flow) are translated into executable
Lean definitions; network effects (dialing, the SMTP exchange) are
modelled by an explicit oracle describing the server's responses, and
Go errors are modelled by their error strings.  Strings are modelled as
Lean String, with byte length (String.utf8ByteSize) where Go takes
len() of a string and rune lists (String.data) where Go converts to
[]rune.  Go's strings.ToLower / Char case folding is modelled on ASCII
(Char.toLower), which covers every string the classifier compares.
-/

namespace EmailVerifier

/-- Check that `needle` occurs at the start of `hay` (character lists). -/
def isSubAtFront : List Char → List Char → Bool
  | [], _ => true
  | _ :: _, [] => false
  | a :: as, b :: bs => a == b && isSubAtFront as bs

/-- Check that `needle` occurs somewhere inside `hay` (substring search,
mirroring Go's strings.Contains on the character level). -/
def containsSub (needle : List Char) : List Char → Bool
  | [] => needle.isEmpty
  | c :: t => isSubAtFront needle (c :: t) || containsSub needle t

/-- Lower-cased character list of a string (Go strings.ToLower, ASCII). -/
def lowerChars (s : String) : List Char := s.data.map Char.toLower

/-- insContains returns true if any of the substrings are found in the
passed string; the check is case insensitive (source: part_003). -/
def insContains (str : String) (subStrs : List String) : Bool :=
  subStrs.any fun sub => containsSub (lowerChars sub) (lowerChars str)

/-- Go strings.ToLower as a String-to-String map (ASCII case folding). -/
def goToLower (s : String) : String := ⟨s.data.map Char.toLower⟩

/-- Accumulating decimal parse of a digit run; fails on any non-digit
(the digits part of Go strconv.Atoi). -/
def parseDigitsAux : List Char → Nat → Option Nat
  | [], acc => some acc
  | c :: cs, acc =>
    if c.isDigit then parseDigitsAux cs (acc * 10 + (c.toNat - 48)) else none

/-- Go strconv.Atoi on a rune list: optional sign, then a non-empty run
of ASCII digits; anything else is a parse error (`none`).  Go returns
the pair (0, err) on failure; callers of the model use `none` where the
source tests `convErr != nil`. -/
def goAtoi (cs : List Char) : Option Int :=
  match cs with
  | [] => none
  | '+' :: rest =>
    if rest.isEmpty then none else (parseDigitsAux rest 0).map Int.ofNat
  | '-' :: rest =>
    if rest.isEmpty then none else (parseDigitsAux rest 0).map (fun n => -(n : Int))
  | _ => (parseDigitsAux cs 0).map Int.ofNat

/-- Standard error: connection timed out (source constant ErrTimeout). -/
def ErrTimeout : String := "The connection to the mail server has timed out"

/-- Standard error: mail server does not exist (ErrNoSuchHost). -/
def ErrNoSuchHost : String := "Mail server does not exist"

/-- Standard error: mail server unavailable (ErrServerUnavailable). -/
def ErrServerUnavailable : String := "Mail server is unavailable"

/-- Standard error: blocked by the mail server (ErrBlocked). -/
def ErrBlocked : String := "Blocked by mail server"

/-- RCPT error: try again later (ErrTryAgainLater). -/
def ErrTryAgainLater : String := "Try again later"

/-- RCPT error: recipient out of disk space (ErrFullInbox). -/
def ErrFullInbox : String := "Recipient out of disk space"

/-- RCPT error: too many recipients (ErrTooManyRCPT). -/
def ErrTooManyRCPT : String := "Too many recipients"

/-- RCPT error: not an open relay (ErrNoRelay). -/
def ErrNoRelay : String := "Not an open relay"

/-- RCPT error: mailbox busy (ErrMailboxBusy). -/
def ErrMailboxBusy : String := "Mailbox busy"

/-- RCPT error: messaging limits exceeded (ErrExceededMessagingLimits). -/
def ErrExceededMessagingLimits : String := "Messaging limits have been exceeded"

/-- RCPT error: not allowed (ErrNotAllowed). -/
def ErrNotAllowed : String := "Not Allowed"

/-- RCPT error: need MAIL before RCPT (ErrNeedMAILBeforeRCPT). -/
def ErrNeedMAILBeforeRCPT : String := "Need MAIL before RCPT"

/-- RCPT error: recipient has moved (ErrRCPTHasMoved). -/
def ErrRCPTHasMoved : String := "Recipient has moved"

/-- LookupError is an MX dns records lookup error (Code, Message,
Details), as in the source. -/
structure LookupError where
  Code : Int
  Message : String
  Details : String
deriving Repr, DecidableEq

/-- newLookupError creates a new LookupError and returns it. -/
def newLookupError (code : Int) (message details : String) : LookupError :=
  ⟨code, message, details⟩

/-- The "address does not exist"-style phrases checked by ParseSMTPError
before the numeric dispatch (source lines 64-74 of part_003). -/
def addressNotFoundPhrases : List String :=
  ["undeliverable", "does not exist", "may not exist", "user unknown",
   "user not found", "invalid address", "recipient invalid",
   "recipient rejected", "address rejected", "no mailbox"]

/-- The capacity phrases disambiguating code 452 (full inbox vs too many
recipients). -/
def fullInboxPhrases : List String := ["full", "space", "over quota", "insufficient"]

/-- The reputation phrases splitting code 550 into blocked vs server
unavailable. -/
def blockedPhrases550 : List String :=
  ["spamhaus", "proofpoint", "cloudmark", "banned", "blacklisted",
   "blocked", "block list", "denied"]

/-- The reputation phrases of the basic (non-numeric) classifier. -/
def blockedPhrasesBasic : List String :=
  ["spamhaus", "proofpoint", "cloudmark", "banned", "blocked", "denied"]

/-- parseBasicErr parses a basic MX record response and returns a more
understandable LookupError (substring classification; in Go it always
returns a non-nil pointer, modelled as `some`). -/
def parseBasicErr (status : Int) (errStr : String) : Option LookupError :=
  if insContains errStr blockedPhrasesBasic then
    some (newLookupError status ErrBlocked errStr)
  else if insContains errStr ["timeout"] then
    some (newLookupError status ErrTimeout errStr)
  else if insContains errStr ["no such host"] then
    some (newLookupError status ErrNoSuchHost errStr)
  else if insContains errStr ["unavailable"] then
    some (newLookupError status ErrServerUnavailable errStr)
  else
    some (newLookupError status errStr errStr)

/-- ParseSMTPError receives an MX server's response message (as the
error string) and generates the corresponding MX error; `none` models
the nil return for status codes at or below 400.  The Go switch on the
status code is an equality dispatch, rendered as an if-chain. -/
def ParseSMTPError (errStr : String) : Option LookupError :=
  if errStr.utf8ByteSize < 3 then parseBasicErr 0 errStr
  else
    match goAtoi (errStr.data.take 3) with
    | none => parseBasicErr 0 errStr
    | some status =>
      if 400 < status then
        if insContains errStr addressNotFoundPhrases then
          some (newLookupError status ErrServerUnavailable errStr)
        else if status = 421 then some (newLookupError status ErrTryAgainLater errStr)
        else if status = 450 then some (newLookupError status ErrMailboxBusy errStr)
        else if status = 451 then some (newLookupError status ErrExceededMessagingLimits errStr)
        else if status = 452 then
          if insContains errStr fullInboxPhrases then
            some (newLookupError status ErrFullInbox errStr)
          else
            some (newLookupError status ErrTooManyRCPT errStr)
        else if status = 503 then some (newLookupError status ErrNeedMAILBeforeRCPT errStr)
        else if status = 550 then
          if insContains errStr blockedPhrases550 then
            some (newLookupError status ErrBlocked errStr)
          else
            some (newLookupError status ErrServerUnavailable errStr)
        else if status = 551 then some (newLookupError status ErrRCPTHasMoved errStr)
        else if status = 552 then some (newLookupError status ErrFullInbox errStr)
        else if status = 553 then some (newLookupError status ErrNoRelay errStr)
        else if status = 554 then some (newLookupError status ErrNotAllowed errStr)
        else parseBasicErr status errStr
      else none

/-- The fixed code-to-category table exactly as claim C1 states it
(spec side, for comparison with ParseSMTPError). -/
def specCodeCategory (code : Int) : String :=
  if code = 421 then ErrTryAgainLater
  else if code = 450 then ErrMailboxBusy
  else if code = 451 then ErrExceededMessagingLimits
  else if code = 503 then ErrNeedMAILBeforeRCPT
  else if code = 551 then ErrRCPTHasMoved
  else if code = 552 then ErrFullInbox
  else if code = 553 then ErrNoRelay
  else if code = 554 then ErrNotAllowed
  else ("")

/-- SMTP stores all information for the SMTP verification lookup, as the
source structure of the same name (every flag defaults to false, the Go
zero value). -/
structure SMTP where
  HostExists : Bool := false
  FullInbox : Bool := false
  CatchAll : Bool := false
  Deliverable : Bool := false
  Disabled : Bool := false
  UsingAPI : Bool := false
deriving Repr, DecidableEq

/-- Mx record entry (Go net.MX: host and preference). -/
structure MXRecord where
  Host : String
  Pref : Nat
deriving Repr, DecidableEq

/-- Mx is detail about the Mx host (source part_001). -/
structure Mx where
  HasMXRecord : Bool
  Records : List MXRecord
deriving Repr, DecidableEq

/-- Vendor capability of the registry (source smtpAPIVerifier interface):
isSupported recognizes a host, check performs the verification through
the vendor's API and returns a result and an error, either of which may
be absent. -/
structure APIVerifier where
  isSupported : String → Bool
  check : String → String → Option SMTP × Option String

/-- Oracle describing the behaviour of the network and of the chosen
SMTP server during one verification call: dial gives the error string of
a failed connection attempt to a host (`none` means the connection and
client bootstrap succeed); hello, mail and rcpt give the error string of
the corresponding SMTP command on the connection to the chosen host
(`none` means the server accepted it).  The fixed ":25" port suffix the
source appends to each host before dialing is dropped, a bijective
renaming of the dial argument. -/
structure SMTPOracle where
  dial : String → Option String
  hello : String → String → Option String
  mail : String → String → Option String
  rcpt : String → String → Option String

/-- Verifier configuration, the fields of the source Verifier structure
this core reads: the two toggles, the HELO name and MAIL FROM address,
the vendor registry (modelled as the sequence in which Go's map
iteration visits the registered vendors), the free-domain table (a data
file outside the probing core, modelled as a membership function) and
the MX resolver (records plus an optional error string). -/
structure Verifier where
  smtpCheckEnabled : Bool
  catchAllCheckEnabled : Bool
  fromEmail : String
  helloName : String
  apiVerifiers : List APIVerifier
  freeDomains : String → Bool
  mxResolver : String → List MXRecord × Option String

/-- IsFreeDomain checks if domain is a free domain (table lookup). -/
def Verifier.IsFreeDomain (v : Verifier) (domain : String) : Bool :=
  v.freeDomains domain

/-- Error type returned by the facade: a classified LookupError from the
SMTP path, or the opaque error of a vendor API check. -/
inductive GoErr where
  | lookup : LookupError → GoErr
  | vendor : String → GoErr
deriving Repr, DecidableEq

/-- Ghost transcript entry recording each RCPT TO the evaluator issues:
the catch-all probe of the random address, or the recipient-specific
probe of the real address. -/
inductive ProbeEvent where
  | catchAllProbe : String → ProbeEvent
  | recipientProbe : String → ProbeEvent
deriving Repr, DecidableEq

/-- True when the transcript contains a recipient-specific probe. -/
def hasRecipientProbe (tr : List ProbeEvent) : Bool :=
  tr.any fun e =>
    match e with
    | .recipientProbe _ => true
    | .catchAllProbe _ => false

/-- Result of one facade call: the optional SMTP result, the optional
error, and the ghost transcript of RCPT probes issued. -/
abbrev ProbeOutcome := Option SMTP × Option GoErr × List ProbeEvent

/-- The source's tagging of a vendor result (res.UsingAPI = true when
res is not nil). -/
def tagUsingAPI : Option SMTP → Option SMTP
  | none => none
  | some r => some { r with UsingAPI := true }

/-- The vendor short-circuit loop of CheckSMTPForMX: the outer loop
ranges over the registered vendors (in iteration order), the inner loop
over the candidate hosts in order; the first vendor recognizing any
host (lower-cased) is selected. -/
def findVendorMatch (vendors : List APIVerifier) (hosts : List String) : Option APIVerifier :=
  match vendors with
  | [] => none
  | vd :: rest =>
    if hosts.any (fun mx => vd.isSupported (goToLower mx)) then some vd
    else findVendorMatch rest hosts

/-- newSMTPClient generates a new available SMTP client: hosts are tried
in order, per-host dial failures are accumulated, the first host that
connects is returned; if every host fails the first recorded error is
returned, and with no hosts at all a fixed error (source lines
454-473). -/
def newSMTPClient (o : SMTPOracle) : List String → List String → Except String String
  | [], errs =>
    match errs with
    | e :: _ => .error e
    | [] => .error ("Unexpected response dialing SMTP server")
  | h :: t, errs =>
    match o.dial h with
    | some e => newSMTPClient o t (errs ++ [e])
    | none => .ok h

/-- The switch on the classification of a failed catch-all RCPT probe
(source lines 413-429): full inbox marks FullInbox, not-allowed marks
Disabled, server-unavailable falls through to the default which clears
CatchAll; an unclassified error (nil from ParseSMTPError) changes
nothing. -/
def applyCatchAllErr (ret : SMTP) : Option String → SMTP
  | none => ret
  | some err =>
    match ParseSMTPError err with
    | none => ret
    | some e =>
      if e.Message = ErrFullInbox then { ret with FullInbox := true }
      else if e.Message = ErrNotAllowed then { ret with Disabled := true }
      else { ret with CatchAll := false }

/-- The recipient-specific tail of CheckSMTPForMX (source lines
438-450): with an empty username the result is returned as is;
otherwise RCPT of the literal username@domain is probed, success marks
Deliverable and failure is classified into the returned error. -/
def recipientStage (ret : SMTP) (o : SMTPOracle) (host email username : String)
    (tr : List ProbeEvent) : SMTP × Option GoErr × List ProbeEvent :=
  if username = "" then (ret, none, tr)
  else
    match o.rcpt host email with
    | some err => (ret, (ParseSMTPError err).map .lookup, tr ++ [.recipientProbe email])
    | none => ({ ret with Deliverable := true }, none, tr ++ [.recipientProbe email])

/-- The evaluator body after HELO and MAIL FROM succeeded (source lines
404-450): HostExists is set; when catch-all checking is enabled and the
domain is not a free domain, CatchAll is provisionally set, the random
address is probed and a rejection is classified by applyCatchAllErr; if
the result is still catch-all the call returns without probing the real
recipient, otherwise (and likewise when the catch-all block is skipped)
the recipient stage runs. -/
def afterMail (v : Verifier) (o : SMTPOracle) (host randomEmail domain username email : String) :
    SMTP × Option GoErr × List ProbeEvent :=
  if v.catchAllCheckEnabled && !(v.IsFreeDomain domain) then
    if (applyCatchAllErr { HostExists := true, CatchAll := true } (o.rcpt host randomEmail)).CatchAll then
      (applyCatchAllErr { HostExists := true, CatchAll := true } (o.rcpt host randomEmail),
       none, [.catchAllProbe randomEmail])
    else
      recipientStage (applyCatchAllErr { HostExists := true, CatchAll := true } (o.rcpt host randomEmail))
        o host email username [.catchAllProbe randomEmail]
  else
    recipientStage { HostExists := true } o host email username []

/-- Lift of the evaluator body's result to the facade's return shape
(the source returns &ret together with the error). -/
def liftResult (r : SMTP × Option GoErr × List ProbeEvent) : Option SMTP × Option GoErr × List ProbeEvent :=
  (some r.1, r.2.1, r.2.2)

/-- CheckSMTPForMX (source lines 362-451): empty host list returns the
nil/nil outcome; otherwise the vendor short-circuit runs first and a
match replaces the whole SMTP flow, its result tagged UsingAPI;
otherwise a client is formed against the host list and the
HELO/MAIL/catch-all/recipient sequence runs, every protocol failure
classified by ParseSMTPError.  The randomEmail parameter stands for the
randomly generated probe address, the third component is the ghost
transcript of RCPT probes. -/
def CheckSMTPForMX (v : Verifier) (o : SMTPOracle) (randomEmail : String)
    (hosts : List String) (domain username : String) : ProbeOutcome :=
  if hosts.length < 1 then (none, none, [])
  else
    match findVendorMatch v.apiVerifiers hosts with
    | some vd =>
      (tagUsingAPI (vd.check domain username).1, (vd.check domain username).2.map .vendor, [])
    | none =>
      match newSMTPClient o hosts [] with
      | .error e => (some {}, (ParseSMTPError e).map .lookup, [])
      | .ok host =>
        match o.hello host v.helloName with
        | some e => (some {}, (ParseSMTPError e).map .lookup, [])
        | none =>
          match o.mail host v.fromEmail with
          | some e => (some {}, (ParseSMTPError e).map .lookup, [])
          | none =>
            liftResult (afterMail v o host randomEmail domain username (username ++ "@" ++ domain))

/-- Modelled from the spec: DomainToASCII lives in a utility file absent
from src/ and performs IDNA (punycode) normalization of the domain; on
an already-ASCII domain it is the identity, and every claim below
quantifies over the resolver's answer for the normalized domain, so the
identity models it without loss. -/
def DomainToASCII (domain : String) : String := domain

/-- CheckSMTP (source lines 340-360): nil/nil when SMTP checking is
disabled; otherwise the domain is normalized and MX records resolved; a
resolver error returns the empty result with the classified error, zero
records return the empty result with the fixed no-such-host error, and
otherwise the record hosts are passed to CheckSMTPForMX. -/
def CheckSMTP (v : Verifier) (o : SMTPOracle) (randomEmail domain username : String) :
    ProbeOutcome :=
  if !v.smtpCheckEnabled then (none, none, [])
  else
    match (v.mxResolver (DomainToASCII domain)).2 with
    | some e => (some {}, (ParseSMTPError e).map .lookup, [])
    | none =>
      if (v.mxResolver (DomainToASCII domain)).1.length = 0 then
        (some {}, some (.lookup (newLookupError 0 ErrNoSuchHost ("No MX records found"))), [])
      else
        CheckSMTPForMX v o randomEmail ((v.mxResolver (DomainToASCII domain)).1.map MXRecord.Host)
          (DomainToASCII domain) username

/-- CheckMX (source part_001 lines 15-25): the resolver is consulted for
the normalized domain; when it reports an error and the record list is
empty, the error alone is returned; otherwise a result whose
HasMXRecord says whether the list is non-empty, with a nil error. -/
def CheckMX (v : Verifier) (domain : String) : Option Mx × Option String :=
  match (v.mxResolver (DomainToASCII domain)).2 with
  | some e =>
    if (v.mxResolver (DomainToASCII domain)).1.length = 0 then (none, some e)
    else (some ⟨decide (0 < (v.mxResolver (DomainToASCII domain)).1.length),
                (v.mxResolver (DomainToASCII domain)).1⟩, none)
  | none => (some ⟨decide (0 < (v.mxResolver (DomainToASCII domain)).1.length),
                   (v.mxResolver (DomainToASCII domain)).1⟩, none)

/-- Concrete SMTP oracle accepting every dial and every command. -/
def okOracle : SMTPOracle :=
  ⟨fun _ => none, fun _ _ => none, fun _ _ => none, fun _ _ => none⟩

/-- Concrete SMTP oracle rejecting every RCPT with a 552 full-inbox
response. -/
def fullInboxOracle : SMTPOracle :=
  ⟨fun _ => none, fun _ _ => none, fun _ _ => none, fun _ _ => some ("552 mailbox is full")⟩

/-- Concrete verifier with SMTP and catch-all checking on, no vendors,
no free domains and a resolver finding no records. -/
def testVerifier : Verifier :=
  ⟨true, true, ("user@example.org"), ("localhost"), [], fun _ => false, fun _ => ([], none)⟩

/-- Concrete verifier with SMTP checking disabled. -/
def offVerifier : Verifier :=
  ⟨false, true, ("user@example.org"), ("localhost"), [], fun _ => false, fun _ => ([], none)⟩

/-- Concrete vendor recognizing only the host h2. -/
def vendorA : APIVerifier :=
  ⟨fun h => h == ("h2"), fun _ _ => (some { Deliverable := true }, none)⟩

/-- Concrete vendor recognizing only the host h1. -/
def vendorB : APIVerifier :=
  ⟨fun h => h == ("h1"), fun _ _ => (some {}, none)⟩

/-- Concrete verifier whose registry iterates vendorA before vendorB. -/
def vendorOrderVerifier : Verifier :=
  ⟨true, true, ("user@example.org"), ("localhost"), [vendorA, vendorB], fun _ => false,
   fun _ => ([], none)⟩

/-- Concrete verifier whose MX resolver fails with an i/o timeout. -/
def timeoutMXVerifier : Verifier :=
  ⟨true, true, ("user@example.org"), ("localhost"), [], fun _ => false,
   fun _ => ([], some ("read udp 1.2.3.4: i/o timeout"))⟩

/-- Concrete verifier whose MX resolver reports both a record and an
error. -/
def mxErrVerifier : Verifier :=
  ⟨true, true, ("user@example.org"), ("localhost"), [], fun _ => false,
   fun _ => ([⟨("mx.d.com"), 10⟩], some ("boom"))⟩

/-- The recipient stage never changes the CatchAll, FullInbox or
Disabled flags of the result it is handed. -/
theorem recipientStage_flags (ret : SMTP) (o : SMTPOracle) (host email username : String)
    (tr : List ProbeEvent) :
    ((recipientStage ret o host email username tr).1).CatchAll = ret.CatchAll ∧
    ((recipientStage ret o host email username tr).1).FullInbox = ret.FullInbox ∧
    ((recipientStage ret o host email username tr).1).Disabled = ret.Disabled := by
  unfold recipientStage
  by_cases hu : username = ("")
  · rw [if_pos hu]
    exact ⟨rfl, rfl, rfl⟩
  · rw [if_neg hu]
    cases o.rcpt host email <;> exact ⟨rfl, rfl, rfl⟩

/-- The catch-all classification switch never touches the Deliverable
flag. -/
theorem applyCatchAllErr_deliverable (ret : SMTP) (x : Option String) :
    (applyCatchAllErr ret x).Deliverable = ret.Deliverable := by
  unfold applyCatchAllErr
  split
  · rfl
  · split
    · rfl
    · split
      · rfl
      · split <;> rfl

/-- The catch-all classification switch sets at most one of FullInbox
and Disabled when both start false. -/
theorem applyCatchAllErr_not_both (ret : SMTP) (x : Option String)
    (hf : ret.FullInbox = false) (hd : ret.Disabled = false) :
    (applyCatchAllErr ret x).FullInbox = false ∨ (applyCatchAllErr ret x).Disabled = false := by
  unfold applyCatchAllErr
  split
  · exact Or.inl hf
  · split
    · exact Or.inl hf
    · split
      · exact Or.inr hd
      · split
        · exact Or.inl hf
        · exact Or.inl hf

/-- The SMTP path of CheckSMTPForMX: with no vendor match and a client
successfully formed, HELO and MAIL FROM accepted, the call returns the
lifted evaluator body. -/
theorem CheckSMTPForMX_smtp_path (v : Verifier) (o : SMTPOracle) (randomEmail : String)
    (hosts : List String) (domain username host : String)
    (hn : ¬ hosts.length < 1)
    (hv : findVendorMatch v.apiVerifiers hosts = none)
    (hc : newSMTPClient o hosts [] = .ok host)
    (hh : o.hello host v.helloName = none)
    (hm : o.mail host v.fromEmail = none) :
    CheckSMTPForMX v o randomEmail hosts domain username =
      liftResult (afterMail v o host randomEmail domain username (username ++ ("@") ++ domain)) := by
  unfold CheckSMTPForMX
  rw [if_neg hn]
  simp only [hv, hc, hh, hm]

/-- Every outcome of CheckSMTPForMX without a vendor match is the
nil/nil outcome, an empty result with a classified transport error, or
the lifted evaluator body for the chosen host. -/
theorem CheckSMTPForMX_cases (v : Verifier) (o : SMTPOracle) (randomEmail : String)
    (hosts : List String) (domain username : String)
    (hv : findVendorMatch v.apiVerifiers hosts = none) :
    CheckSMTPForMX v o randomEmail hosts domain username = (none, none, []) ∨
    (∃ e, CheckSMTPForMX v o randomEmail hosts domain username =
      (some {}, (ParseSMTPError e).map .lookup, [])) ∨
    (∃ host, CheckSMTPForMX v o randomEmail hosts domain username =
      liftResult (afterMail v o host randomEmail domain username (username ++ ("@") ++ domain))) := by
  by_cases hn : hosts.length < 1
  · left
    unfold CheckSMTPForMX
    rw [if_pos hn]
  · cases hc : newSMTPClient o hosts [] with
    | error e =>
      right; left
      refine ⟨e, ?_⟩
      unfold CheckSMTPForMX
      rw [if_neg hn]
      simp only [hv, hc]
    | ok host =>
      cases hh : o.hello host v.helloName with
      | some e =>
        right; left
        refine ⟨e, ?_⟩
        unfold CheckSMTPForMX
        rw [if_neg hn]
        simp only [hv, hc, hh]
      | none =>
        cases hm : o.mail host v.fromEmail with
        | some e =>
          right; left
          refine ⟨e, ?_⟩
          unfold CheckSMTPForMX
          rw [if_neg hn]
          simp only [hv, hc, hh, hm]
        | none =>
          right; right
          exact ⟨host, CheckSMTPForMX_smtp_path v o randomEmail hosts domain username host hn hv hc hh hm⟩

/-- When the evaluator body ends with the catch-all flag set, it ended
at the early return: Deliverable is untouched and the transcript is the
single catch-all probe. -/
theorem afterMail_catchAll (v : Verifier) (o : SMTPOracle) (host randomEmail domain username email : String)
    (hca : (afterMail v o host randomEmail domain username email).1.CatchAll = true) :
    (afterMail v o host randomEmail domain username email).1.Deliverable = false ∧
    (afterMail v o host randomEmail domain username email).2.2 = [.catchAllProbe randomEmail] := by
  unfold afterMail at hca ⊢
  by_cases hc : (v.catchAllCheckEnabled && !(v.IsFreeDomain domain)) = true
  · rw [if_pos hc] at hca ⊢
    by_cases h2 : (applyCatchAllErr { HostExists := true, CatchAll := true } (o.rcpt host randomEmail)).CatchAll = true
    · rw [if_pos h2] at hca ⊢
      exact ⟨applyCatchAllErr_deliverable _ _, rfl⟩
    · rw [if_neg h2] at hca
      rw [(recipientStage_flags _ o host email username _).1] at hca
      exact absurd hca h2
  · rw [if_neg hc] at hca
    rw [(recipientStage_flags _ o host email username _).1] at hca
    exact absurd hca (by decide)

/-- The evaluator body never sets both FullInbox and Disabled. -/
theorem afterMail_not_both (v : Verifier) (o : SMTPOracle) (host randomEmail domain username email : String) :
    (afterMail v o host randomEmail domain username email).1.FullInbox = false ∨
    (afterMail v o host randomEmail domain username email).1.Disabled = false := by
  unfold afterMail
  by_cases hc : (v.catchAllCheckEnabled && !(v.IsFreeDomain domain)) = true
  · rw [if_pos hc]
    by_cases h2 : (applyCatchAllErr { HostExists := true, CatchAll := true } (o.rcpt host randomEmail)).CatchAll = true
    · rw [if_pos h2]
      exact applyCatchAllErr_not_both _ _ rfl rfl
    · rw [if_neg h2]
      rcases applyCatchAllErr_not_both { HostExists := true, CatchAll := true } (o.rcpt host randomEmail) rfl rfl with h | h
      · exact Or.inl (((recipientStage_flags _ o host email username _).2.1).trans h)
      · exact Or.inr (((recipientStage_flags _ o host email username _).2.2).trans h)
  · rw [if_neg hc]
    exact Or.inl ((recipientStage_flags _ o host email username _).2.1)

/-- Characterization of a successful vendor lookup: the vendor is
registered and recognizes one of the candidate hosts. -/
theorem findVendorMatch_spec (vendors : List APIVerifier) (hosts : List String) (vd : APIVerifier)
    (h : findVendorMatch vendors hosts = some vd) :
    vd ∈ vendors ∧ hosts.any (fun mx => vd.isSupported (goToLower mx)) = true := by
  induction vendors with
  | nil => exact absurd h (by simp [findVendorMatch])
  | cons w rest ih =>
    unfold findVendorMatch at h
    by_cases hw : hosts.any (fun mx => w.isSupported (goToLower mx)) = true
    · rw [if_pos hw] at h
      cases h
      exact ⟨List.mem_cons_self _ _, hw⟩
    · rw [if_neg hw] at h
      have := ih h
      exact ⟨List.mem_cons_of_mem _ this.1, this.2⟩

/-- Claim C1, counterexample: the raw error string "421 user unknown"
has the parseable 3-digit status code 421 of the mapped set, yet
ParseSMTPError classifies it as server-unavailable rather than the
table's try-again-later category, so the classification is not
independent of the surrounding text. -/
theorem c1_counterexample :
    goAtoi (("421 user unknown").data.take 3) = some 421 ∧
    (ParseSMTPError ("421 user unknown")).map LookupError.Message ≠
      some (specCodeCategory 421) := by
  decide

/-- Claim C1 (corrected): for every raw error string of at least three
bytes whose first three characters parse as a status code in {421, 450,
451, 503, 551, 552, 553, 554} and which contains none of the fixed
"address not found" phrases, ParseSMTPError returns the category fixed
by the code-to-category table, independent of the remaining text. -/
theorem c1_code_table (errStr : String) (code : Int)
    (hlen : ¬ errStr.utf8ByteSize < 3)
    (hparse : goAtoi (errStr.data.take 3) = some code)
    (hcode : code = 421 ∨ code = 450 ∨ code = 451 ∨ code = 503 ∨
             code = 551 ∨ code = 552 ∨ code = 553 ∨ code = 554)
    (hphrase : insContains errStr addressNotFoundPhrases = false) :
    ParseSMTPError errStr = some (newLookupError code (specCodeCategory code) errStr) := by
  unfold ParseSMTPError
  rw [if_neg hlen, hparse]
  rcases hcode with rfl | rfl | rfl | rfl | rfl | rfl | rfl | rfl <;>
    simp [hphrase, specCodeCategory, newLookupError]

/-- Claim C1, witness: a concrete 421 string free of the phrases is
classified as try-again-later by the table. -/
theorem c1_witness :
    ParseSMTPError ("421 closing transmission channel") =
      some (newLookupError 421 (specCodeCategory 421) ("421 closing transmission channel")) :=
  c1_code_table ("421 closing transmission channel") 421 (by decide) (by decide)
    (Or.inl rfl) (by decide)

/-- Claim C2, counterexample: the raw error string "user unknown"
contains an "address not found" phrase but has no parseable numeric
prefix, and ParseSMTPError classifies it as an unclassified passthrough
(its own text), not as server-unavailable. -/
theorem c2_counterexample :
    insContains ("user unknown") addressNotFoundPhrases = true ∧
    (ParseSMTPError ("user unknown")).map LookupError.Message ≠ some ErrServerUnavailable := by
  decide

/-- Claim C2 (corrected): for every error string of at least three
bytes whose first three characters parse as a status code greater than
400 and which contains any of the fixed "address not found" phrases
(case-insensitive), ParseSMTPError classifies it as server_unavailable
regardless of which code it is, including codes that would otherwise
map elsewhere (for example 550 with "user unknown"). -/
theorem c2_phrase_override (errStr : String) (code : Int)
    (hlen : ¬ errStr.utf8ByteSize < 3)
    (hparse : goAtoi (errStr.data.take 3) = some code)
    (hgt : 400 < code)
    (hphrase : insContains errStr addressNotFoundPhrases = true) :
    ParseSMTPError errStr = some (newLookupError code ErrServerUnavailable errStr) := by
  unfold ParseSMTPError
  rw [if_neg hlen, hparse]
  simp only [if_pos hgt, hphrase, if_pos]

/-- Claim C2, witness: a 550 code with "user unknown" is classified as
server-unavailable although 550 would otherwise map elsewhere. -/
theorem c2_witness :
    ParseSMTPError ("550 user unknown") =
      some (newLookupError 550 ErrServerUnavailable ("550 user unknown")) :=
  c2_phrase_override ("550 user unknown") 550 (by decide) (by decide) (by decide) (by decide)

/-- Claim C7 (confirmed): for the empty candidate host list,
CheckSMTPForMX returns no result and no error (and issues no probes),
for every verifier, oracle, random address, domain and username. -/
theorem c7_empty_hosts (v : Verifier) (o : SMTPOracle) (randomEmail domain username : String) :
    CheckSMTPForMX v o randomEmail [] domain username = (none, none, []) := rfl

/-- Claim C8 (confirmed): whenever SMTP checking is disabled, CheckSMTP
returns the nil result and nil error unconditionally, for every domain
and username including malformed ones. -/
theorem c8_disabled (v : Verifier) (o : SMTPOracle) (randomEmail domain username : String)
    (h : v.smtpCheckEnabled = false) :
    CheckSMTP v o randomEmail domain username = (none, none, []) := by
  unfold CheckSMTP
  rw [h]
  rfl

/-- Claim C8, witness: the disabled verifier returns nil/nil on a
malformed domain and username. -/
theorem c8_witness :
    CheckSMTP offVerifier okOracle ("rnd@d.com") ("not a domain !!") ("user name") =
      (none, none, []) :=
  c8_disabled offVerifier okOracle ("rnd@d.com") ("not a domain !!") ("user name") rfl

/-- Claim C10 (confirmed): CheckMX returns a non-nil error only when
the resolver's record list is empty, and whenever the resolver returns
a non-empty record list CheckMX returns HasMXRecord = true with a nil
error, even if the resolver also reported an error. -/
theorem c10_mx_error_only_when_empty (v : Verifier) (domain : String) :
    ((CheckMX v domain).2 ≠ none → (v.mxResolver (DomainToASCII domain)).1 = []) ∧
    ((v.mxResolver (DomainToASCII domain)).1 ≠ [] →
      CheckMX v domain = (some ⟨true, (v.mxResolver (DomainToASCII domain)).1⟩, none)) := by
  rcases hres : v.mxResolver (DomainToASCII domain) with ⟨mx, err⟩
  unfold CheckMX
  rw [hres]
  cases err with
  | none =>
    dsimp only
    refine ⟨fun hne => absurd rfl hne, fun hmx => ?_⟩
    have hpos : 0 < mx.length := List.length_pos.mpr hmx
    simp [hpos]
  | some e =>
    dsimp only
    by_cases h0 : mx.length = 0
    · have hmx : mx = [] := List.length_eq_zero.mp h0
      subst hmx
      exact ⟨fun _ => rfl, fun hne => absurd rfl hne⟩
    · rw [if_neg h0]
      refine ⟨fun hne => absurd rfl hne, fun _ => ?_⟩
      have hpos : 0 < mx.length := Nat.pos_of_ne_zero h0
      simp [hpos]

/-- Claim C10, witness: a resolver reporting one record together with
an error still yields HasMXRecord = true and a nil error. -/
theorem c10_witness :
    CheckMX mxErrVerifier ("d.com") = (some ⟨true, [⟨("mx.d.com"), 10⟩]⟩, none) :=
  (c10_mx_error_only_when_empty mxErrVerifier ("d.com")).2 (by decide)

/-- Reduction of the catch-all switch for a rejection whose
classification is known. -/
theorem applyCatchAllErr_some (ret : SMTP) (err : String) (le : LookupError)
    (hp : ParseSMTPError err = some le) :
    applyCatchAllErr ret (some err) =
      if le.Message = ErrFullInbox then { ret with FullInbox := true }
      else if le.Message = ErrNotAllowed then { ret with Disabled := true }
      else { ret with CatchAll := false } := by
  unfold applyCatchAllErr
  dsimp only
  rw [hp]

/-- Claim C3, counterexample: when the catch-all probe is rejected with
a 552 full-inbox response, the returned result has FullInbox set but
its CatchAll flag is still true, so a full-inbox classification does not
leave the result "not catch-all" as the claim states. -/
theorem c3_counterexample :
    (CheckSMTPForMX testVerifier fullInboxOracle ("rnd@d.com") [("h1")] ("d.com") ("bob")).1 =
      some { HostExists := true, FullInbox := true, CatchAll := true } := by
  decide

/-- Claim C3 (corrected): during the catch-all probe of CheckSMTPForMX,
when the RCPT of the random address is rejected, a full-inbox
classification sets FullInbox and leaves CatchAll true (it was set
before the probe), a not-allowed classification sets Disabled and
leaves CatchAll true, and a server-unavailable classification, like any
other (default) classification, clears the CatchAll flag. -/
theorem c3_catchall_classify (v : Verifier) (o : SMTPOracle)
    (randomEmail domain username host err : String) (hosts : List String) (le : LookupError)
    (hn : ¬ hosts.length < 1)
    (hv : findVendorMatch v.apiVerifiers hosts = none)
    (hc : newSMTPClient o hosts [] = .ok host)
    (hh : o.hello host v.helloName = none)
    (hm : o.mail host v.fromEmail = none)
    (hca : v.catchAllCheckEnabled = true)
    (hf : v.IsFreeDomain domain = false)
    (hr : o.rcpt host randomEmail = some err)
    (hp : ParseSMTPError err = some le) :
    ∃ r, (CheckSMTPForMX v o randomEmail hosts domain username).1 = some r ∧
      (le.Message = ErrFullInbox →
        r.FullInbox = true ∧ r.CatchAll = true ∧ r.Disabled = false) ∧
      (le.Message = ErrNotAllowed →
        r.Disabled = true ∧ r.CatchAll = true ∧ r.FullInbox = false) ∧
      (le.Message ≠ ErrFullInbox → le.Message ≠ ErrNotAllowed →
        r.CatchAll = false ∧ r.FullInbox = false ∧ r.Disabled = false) := by
  rw [CheckSMTPForMX_smtp_path v o randomEmail hosts domain username host hn hv hc hh hm]
  unfold afterMail
  rw [hca, hf, hr, applyCatchAllErr_some _ err le hp]
  by_cases h1 : le.Message = ErrFullInbox
  · rw [if_pos h1]
    refine ⟨{ HostExists := true, FullInbox := true, CatchAll := true }, rfl, ?_, ?_, ?_⟩
    · intro _
      exact ⟨rfl, rfl, rfl⟩
    · intro h2
      exact absurd (h1.symm.trans h2) (by decide)
    · intro hne _
      exact absurd h1 hne
  · rw [if_neg h1]
    by_cases h2 : le.Message = ErrNotAllowed
    · rw [if_pos h2]
      refine ⟨{ HostExists := true, Disabled := true, CatchAll := true }, rfl, ?_, ?_, ?_⟩
      · intro hcon
        exact absurd (hcon.symm.trans h2) (by decide)
      · intro _
        exact ⟨rfl, rfl, rfl⟩
      · intro _ hne
        exact absurd h2 hne
    · rw [if_neg h2]
      refine ⟨(recipientStage ({ HostExists := true }) o host
          (username ++ ("@") ++ domain) username [ProbeEvent.catchAllProbe randomEmail]).1,
        rfl, ?_, ?_, ?_⟩
      · intro hcon
        exact absurd hcon h1
      · intro hcon
        exact absurd hcon h2
      · intro _ _
        have hfl := recipientStage_flags ({ HostExists := true }) o host
          (username ++ ("@") ++ domain) username [ProbeEvent.catchAllProbe randomEmail]
        exact ⟨hfl.1.trans rfl, hfl.2.1.trans rfl, hfl.2.2.trans rfl⟩

/-- Claim C3, witness: a concrete run whose catch-all probe fails with
a 552 full-inbox response yields FullInbox true together with CatchAll
true. -/
theorem c3_witness :
    ∃ r, (CheckSMTPForMX testVerifier fullInboxOracle ("rnd@d.com") [("h1")] ("d.com") ("bob")).1 =
        some r ∧ r.FullInbox = true ∧ r.CatchAll = true ∧ r.Disabled = false := by
  obtain ⟨r, hres, h1, h2, h3⟩ :=
    c3_catchall_classify testVerifier fullInboxOracle ("rnd@d.com") ("d.com") ("bob") ("h1")
      ("552 mailbox is full") [("h1")] (newLookupError 552 ErrFullInbox ("552 mailbox is full"))
      (by decide) rfl rfl rfl rfl rfl rfl rfl (by decide)
  exact ⟨r, hres, h1 rfl⟩

/-- Claim C4, counterexample: with vendors registered in the iteration
order [vendorA, vendorB], hosts ["h1", "h2"], vendorB recognizing the
earliest host h1 and vendorA only the later host h2, the call
nevertheless returns vendorA's result: the outer loop ranges over
vendors, so vendor iteration order, not host order, decides. -/
theorem c4_counterexample :
    vendorA.isSupported (goToLower ("h1")) = false ∧
    vendorA.isSupported (goToLower ("h2")) = true ∧
    vendorB.isSupported (goToLower ("h1")) = true ∧
    (CheckSMTPForMX vendorOrderVerifier okOracle ("rnd@d.com") [("h1"), ("h2")] ("d.com") ("u")).1 =
      tagUsingAPI (vendorA.check ("d.com") ("u")).1 ∧
    tagUsingAPI (vendorA.check ("d.com") ("u")).1 ≠ tagUsingAPI (vendorB.check ("d.com") ("u")).1 := by
  refine ⟨rfl, rfl, rfl, rfl, ?_⟩
  decide

/-- Claim C4 (corrected): the vendor short-circuit selects the first
vendor in registry iteration order that recognizes any host of the
ordered list (within one vendor, hosts are scanned in order); the whole
SMTP flow is replaced by that vendor's check, and its ProbeResult, when
present, is tagged UsingAPI = true. -/
theorem c4_vendor_precedence (v : Verifier) (o : SMTPOracle) (randomEmail domain username : String)
    (hosts : List String) (vd : APIVerifier)
    (hn : ¬ hosts.length < 1)
    (hv : findVendorMatch v.apiVerifiers hosts = some vd) :
    CheckSMTPForMX v o randomEmail hosts domain username =
      (tagUsingAPI (vd.check domain username).1, (vd.check domain username).2.map GoErr.vendor, []) ∧
    (∀ r, (vd.check domain username).1 = some r →
      (CheckSMTPForMX v o randomEmail hosts domain username).1 = some { r with UsingAPI := true }) ∧
    vd ∈ v.apiVerifiers ∧
    hosts.any (fun mx => vd.isSupported (goToLower mx)) = true := by
  have hmain : CheckSMTPForMX v o randomEmail hosts domain username =
      (tagUsingAPI (vd.check domain username).1, (vd.check domain username).2.map GoErr.vendor, []) := by
    unfold CheckSMTPForMX
    rw [if_neg hn]
    simp only [hv]
  obtain ⟨hmem, hany⟩ := findVendorMatch_spec v.apiVerifiers hosts vd hv
  refine ⟨hmain, ?_, hmem, hany⟩
  intro r hr
  rw [hmain, hr]
  rfl

/-- Claim C4, witness: the concrete two-vendor registry dispatches to
vendorA and tags its result. -/
theorem c4_witness :
    CheckSMTPForMX vendorOrderVerifier okOracle ("rnd@d.com") [("h1"), ("h2")] ("d.com") ("u") =
      (tagUsingAPI (vendorA.check ("d.com") ("u")).1,
       (vendorA.check ("d.com") ("u")).2.map GoErr.vendor, []) :=
  (c4_vendor_precedence vendorOrderVerifier okOracle ("rnd@d.com") ("d.com") ("u")
    [("h1"), ("h2")] vendorA (by decide) rfl).1

/-- Claim C5 (confirmed): whenever a run of CheckSMTPForMX on the SMTP
path returns a result whose CatchAll flag is set, the recipient-specific
RCPT probe was never issued (the transcript holds no recipient probe)
and Deliverable is false, even when a non-empty username was supplied. -/
theorem c5_catchall_no_recipient_probe (v : Verifier) (o : SMTPOracle)
    (randomEmail domain username : String) (hosts : List String) (r : SMTP)
    (hv : findVendorMatch v.apiVerifiers hosts = none)
    (hres : (CheckSMTPForMX v o randomEmail hosts domain username).1 = some r)
    (hca : r.CatchAll = true) :
    r.Deliverable = false ∧
    hasRecipientProbe (CheckSMTPForMX v o randomEmail hosts domain username).2.2 = false := by
  rcases CheckSMTPForMX_cases v o randomEmail hosts domain username hv with h | ⟨e, h⟩ | ⟨host, h⟩
  · rw [h] at hres
    exact absurd hres (by simp)
  · rw [h] at hres
    have hr : ({} : SMTP) = r := Option.some.inj hres
    rw [← hr] at hca
    exact absurd hca (by decide)
  · rw [h] at hres ⊢
    have hr : (afterMail v o host randomEmail domain username (username ++ ("@") ++ domain)).1 = r :=
      Option.some.inj hres
    rw [← hr] at hca
    obtain ⟨hd, ht⟩ := afterMail_catchAll v o host randomEmail domain username _ hca
    refine ⟨hr ▸ hd, ?_⟩
    have hlift : (liftResult (afterMail v o host randomEmail domain username
        (username ++ ("@") ++ domain))).2.2 =
        (afterMail v o host randomEmail domain username (username ++ ("@") ++ domain)).2.2 := rfl
    rw [hlift, ht]
    simp [hasRecipientProbe]

/-- Claim C5, witness: a concrete catch-all run (random probe accepted)
returns Deliverable false and a transcript without a recipient probe,
although the username "bob" was supplied. -/
theorem c5_witness :
    ({ HostExists := true, CatchAll := true } : SMTP).Deliverable = false ∧
    hasRecipientProbe
      (CheckSMTPForMX testVerifier okOracle ("rnd@d.com") [("h1")] ("d.com") ("bob")).2.2 = false :=
  c5_catchall_no_recipient_probe testVerifier okOracle ("rnd@d.com") ("d.com") ("bob") [("h1")]
    ({ HostExists := true, CatchAll := true }) rfl rfl rfl

/-- Claim C6, counterexample: with SMTP checking enabled and an MX
resolution failure whose error text reads "read udp 1.2.3.4: i/o
timeout", CheckSMTP returns the empty result with an error classified
as timeout, not as no_such_host, so a resolution failure does not
always carry the no-such-host category. -/
theorem c6_counterexample :
    timeoutMXVerifier.smtpCheckEnabled = true ∧
    (timeoutMXVerifier.mxResolver (DomainToASCII ("d.com"))).2 =
      some ("read udp 1.2.3.4: i/o timeout") ∧
    (CheckSMTP timeoutMXVerifier okOracle ("rnd@d.com") ("d.com") ("u")).1 = some {} ∧
    (CheckSMTP timeoutMXVerifier okOracle ("rnd@d.com") ("d.com") ("u")).2.1 =
      some (.lookup (newLookupError 0 ErrTimeout ("read udp 1.2.3.4: i/o timeout"))) ∧
    ErrTimeout ≠ ErrNoSuchHost := by
  refine ⟨rfl, rfl, rfl, ?_, by decide⟩
  decide

/-- Claim C6 (corrected): with SMTP checking enabled, a resolution that
succeeds with zero records returns the empty result together with the
fixed no_such_host classified error, while a resolution failure returns
the empty result together with the ParseSMTPError classification of the
resolver's error text (which is no_such_host exactly when that text
says so). -/
theorem c6_resolution_errors (v : Verifier) (o : SMTPOracle)
    (randomEmail domain username : String)
    (hen : v.smtpCheckEnabled = true) :
    ((v.mxResolver (DomainToASCII domain)).2 = none →
      (v.mxResolver (DomainToASCII domain)).1 = [] →
      CheckSMTP v o randomEmail domain username =
        (some {}, some (.lookup (newLookupError 0 ErrNoSuchHost ("No MX records found"))), [])) ∧
    (∀ e, (v.mxResolver (DomainToASCII domain)).2 = some e →
      CheckSMTP v o randomEmail domain username =
        (some {}, (ParseSMTPError e).map GoErr.lookup, [])) := by
  constructor
  · intro h2 h1
    unfold CheckSMTP
    rw [hen, h2, h1]
    rfl
  · intro e h2
    unfold CheckSMTP
    rw [hen, h2]
    rfl

/-- Claim C6, witness: a resolver finding no records yields the empty
result with the no-such-host error. -/
theorem c6_witness :
    CheckSMTP testVerifier okOracle ("rnd@d.com") ("d.com") ("u") =
      (some {}, some (.lookup (newLookupError 0 ErrNoSuchHost ("No MX records found"))), []) :=
  (c6_resolution_errors testVerifier okOracle ("rnd@d.com") ("d.com") ("u") rfl).1 rfl rfl

/-- Claim C9 (confirmed): a result returned by CheckSMTPForMX through
the SMTP path never has FullInbox and Disabled both true, since each
stems from a single classification of the one failed catch-all RCPT. -/
theorem c9_not_both_full_disabled (v : Verifier) (o : SMTPOracle)
    (randomEmail domain username : String) (hosts : List String) (r : SMTP)
    (hv : findVendorMatch v.apiVerifiers hosts = none)
    (hres : (CheckSMTPForMX v o randomEmail hosts domain username).1 = some r) :
    ¬(r.FullInbox = true ∧ r.Disabled = true) := by
  rintro ⟨hfi, hdi⟩
  rcases CheckSMTPForMX_cases v o randomEmail hosts domain username hv with h | ⟨e, h⟩ | ⟨host, h⟩
  · rw [h] at hres
    exact absurd hres (by simp)
  · rw [h] at hres
    have hr : ({} : SMTP) = r := Option.some.inj hres
    rw [← hr] at hfi
    exact absurd hfi (by decide)
  · rw [h] at hres
    have hr : (afterMail v o host randomEmail domain username (username ++ ("@") ++ domain)).1 = r :=
      Option.some.inj hres
    rcases afterMail_not_both v o host randomEmail domain username (username ++ ("@") ++ domain)
      with hc | hc
    · rw [hr] at hc
      rw [hc] at hfi
      exact Bool.noConfusion hfi
    · rw [hr] at hc
      rw [hc] at hdi
      exact Bool.noConfusion hdi

/-- Claim C9, witness: the concrete catch-all run's result does not
have both flags set. -/
theorem c9_witness :
    ¬(({ HostExists := true, CatchAll := true } : SMTP).FullInbox = true ∧
      ({ HostExists := true, CatchAll := true } : SMTP).Disabled = true) :=
  c9_not_both_full_disabled testVerifier okOracle ("rnd@d.com") ("d.com") ("bob") [("h1")]
    ({ HostExists := true, CatchAll := true }) rfl rfl

end EmailVerifier
